import Mathlib

/-!
Shallow embedding, in Lean 4, of the core of the `mst_gis` radio-propagation
GIS pipeline (repository `gmst_py1812`):

* `src/mst_gis/propagation/point_generator.py` — phyllotaxis point generation;
* `src/mst_gis/gis/geojson_builder.py` — GeoJSON feature construction;
* `src/mst_gis/pipeline/config.py` and `src/mst_gis/utils/validation.py` —
  configuration store and validation;
* `src/mst_gis/propagation/batch_processor.py` — batch orchestration.

Numbers that the Python code holds in floats are modelled as exact rationals
(`ℚ`) where only field/list plumbing and comparisons matter, and as reals
(`ℝ`) where transcendental functions (`math.cos`, `math.sin`, `math.sqrt`,
`math.pi`) are involved.  Python lists become Lean `List`s; Python dicts
become association lists looked up front-to-back (Python dict keys are
unique, so first-match lookup agrees with dict lookup).  A Python function
that mutates an argument list in place is modelled as returning the final
value of that list alongside its ordinary return value.
-/

deriving instance DecidableEq for Except

namespace MstGis

/-- Value stored in a configuration dict or a GeoJSON property bag:
either a number (Python int/float, modelled exactly as a rational)
or a string. -/
inductive Val where
  | num (q : ℚ)
  | str (s : String)
deriving DecidableEq, Repr

/-- Key of a configuration section dict: the sections `TRANSMITTER`,
`P1812`, `RECEIVER_GENERATION` and `SENTINEL_HUB` use string keys, while
`LCM10_TO_CT` and `CT_TO_R` use Python integer keys. -/
inductive Key where
  | s (name : String)
  | n (code : Int)
deriving DecidableEq, Repr

/-- A configuration section: one Python dict of scalar entries. -/
abbrev Sect := List (Key × Val)

/-- The whole configuration: the top-level dict from section name to
section dict. -/
abbrev Config := List (String × Sect)

/-- First-match association lookup; models Python `d[k]` / `k in d` /
`d.get(k)` on a dict represented as a key-unique association list. -/
def assocFind {α β : Type} [DecidableEq α] : List (α × β) → α → Option β
  | [], _ => none
  | (k, v) :: rest, key => if k = key then some v else assocFind rest key

/-- Python dict assignment `d[k] = v`: replace the value at an existing
key in place, otherwise append the new binding at the end (Python dicts
preserve insertion order). -/
def assocSet {α β : Type} [DecidableEq α] : List (α × β) → α → β → List (α × β)
  | [], key, v => [(key, v)]
  | (k, w) :: rest, key, v =>
      if k = key then (k, v) :: rest else (k, w) :: assocSet rest key v

theorem assocFind_assocSet_self {α β : Type} [DecidableEq α]
    (l : List (α × β)) (k : α) (v : β) :
    assocFind (assocSet l k v) k = some v := by
  induction l with
  | nil => simp [assocSet, assocFind]
  | cons hd tl ih =>
      obtain ⟨k', w⟩ := hd
      by_cases h : k' = k
      · subst h; simp [assocSet, assocFind]
      · simp [assocSet, assocFind, h, ih]

/-! ### GeoJSON model (`geojson_builder.py`)

The `geojson` library objects used by the repository are plain geometry
plus a property dict; coordinates are (lon, lat) pairs of floats, here
rationals. -/

/-- A coordinate as the code passes it around: `(lon, lat)` (a two-element
Python list `[lon, lat]` for polygon rings; a pair for points). -/
abbrev Coord := ℚ × ℚ

/-- GeoJSON geometry as used by `geojson_builder.py`. -/
inductive Geometry where
  | point (coord : Coord)
  | lineString (coords : List Coord)
  | polygon (rings : List (List Coord))
deriving DecidableEq, Repr

/-- A GeoJSON feature: geometry plus an ordered property bag. -/
structure Feature where
  geometry : Geometry
  properties : List (String × Val)
deriving DecidableEq, Repr

/-- A GeoJSON feature collection. -/
structure FeatureCollection where
  features : List Feature
deriving DecidableEq, Repr

/-- The `name` property of a feature, read off its property bag. -/
def featureName (f : Feature) : Option Val :=
  assocFind f.properties "name"

/-- Modelled from the spec: `process_loss_parameters` lives in
`mst_gis/propagation/profile_parser.py`, which is not present in the
sources; the spec's §3 documents the positional layout of the parameter
tuple it produces (`LossParameterSet`): frequency at index 0, time
percentage at 1, the ordered distance sequence at 2, TX/RX antenna
heights at 7/8, polarization at 9, TX latitude/longitude at 10/12 and
RX latitude/longitude at 11/13.  Indices 3–6 (terrain/clutter vectors)
are never read by the in-repository code, so they are left abstract. -/
structure LossParameterSet where
  f : ℚ          -- parameters[0]: frequency (GHz)
  p : ℚ          -- parameters[1]: time percentage
  d : List ℚ     -- parameters[2]: path distances (km)
  htg : ℚ        -- parameters[7]: TX antenna height
  hrg : ℚ        -- parameters[8]: RX antenna height
  pol : ℚ        -- parameters[9]: polarization
  txLat : ℚ      -- parameters[10]
  rxLat : ℚ      -- parameters[11]
  txLon : ℚ      -- parameters[12]
  rxLon : ℚ      -- parameters[13]
deriving DecidableEq, Repr

/-- Python `seq[-1]` on the distance sequence; the batch claims only use
it on nonempty sequences (Python raises `IndexError` on an empty one,
and the theorems below carry nonemptiness hypotheses where it matters). -/
def lastDistance (l : List ℚ) : ℚ := l.getLastD 0

/-- `generate_geojson_point_transmitter(parameters)` from
`geojson_builder.py`. -/
def generate_geojson_point_transmitter (parameters : LossParameterSet) : Feature :=
  let tx_lon := parameters.txLon
  let tx_lat := parameters.txLat
  { geometry := Geometry.point (tx_lon, tx_lat)
    properties :=
      [ ("name", Val.str "Transmitter")
      , ("frequency", Val.num parameters.f)
      , ("htg", Val.num parameters.htg)
      , ("polarization", Val.num parameters.pol)
      , ("lon", Val.num tx_lon)
      , ("lat", Val.num tx_lat) ] }

/-- `generate_geojson_point_receiver(parameters, number, Lb, Ep)` from
`geojson_builder.py`; `name` is the f-string `Receiver_{number}`. -/
def generate_geojson_point_receiver (parameters : LossParameterSet)
    (number : ℕ) (Lb Ep : ℚ) : Feature :=
  let rx_lon := parameters.rxLon
  let rx_lat := parameters.rxLat
  { geometry := Geometry.point (rx_lon, rx_lat)
    properties :=
      [ ("name", Val.str ("Receiver_" ++ toString number))
      , ("Lb", Val.num Lb)
      , ("Ep", Val.num Ep)
      , ("hrg", Val.num parameters.hrg)
      , ("distance", Val.num (lastDistance parameters.d))
      , ("lon", Val.num rx_lon)
      , ("lat", Val.num rx_lat) ] }

/-- `generate_geojson_line(parameters, index, Lb, Ep)` from
`geojson_builder.py`; `name` is the f-string `Link_{index+1}`. -/
def generate_geojson_line (parameters : LossParameterSet)
    (index : ℕ) (Lb Ep : ℚ) : Feature :=
  let tx_lon := parameters.txLon
  let tx_lat := parameters.txLat
  let rx_lon := parameters.rxLon
  let rx_lat := parameters.rxLat
  { geometry := Geometry.lineString [(tx_lon, tx_lat), (rx_lon, rx_lat)]
    properties :=
      [ ("name", Val.str ("Link_" ++ toString (index + 1)))
      , ("rx_id", Val.num ((index : ℚ) + 1))
      , ("tx_lon", Val.num tx_lon)
      , ("tx_lat", Val.num tx_lat)
      , ("rx_lon", Val.num rx_lon)
      , ("rx_lat", Val.num rx_lat)
      , ("distance_km", Val.num (lastDistance parameters.d))
      , ("Lb", Val.num Lb)
      , ("Ep", Val.num Ep) ] }

/-- `generate_geojson_polygon(polygon_coords)` from `geojson_builder.py`.

The Python function mutates its argument:
`polygon_coords.append(polygon_coords[0])` extends the caller's list in
place when the ring is nonempty and not yet closed.  The embedding
therefore returns a pair: the first component is the final value of the
caller's `polygon_coords` list after the call, the second the returned
feature collection. -/
def generate_geojson_polygon (polygon_coords : List Coord) :
    List Coord × FeatureCollection :=
  -- `if polygon_coords and polygon_coords[0] != polygon_coords[-1]:`
  --   `polygon_coords.append(polygon_coords[0])`
  let polygon_coords :=
    match polygon_coords with
    | [] => []
    | c0 :: rest =>
        if (c0 :: rest).getLast (List.cons_ne_nil c0 rest) ≠ c0 then
          (c0 :: rest) ++ [c0]
        else c0 :: rest
  ( polygon_coords
  , { features :=
        [ { geometry :=
              -- `geojson.Polygon([polygon_coords]) if polygon_coords`
              -- `else geojson.Polygon([[]])`
              match polygon_coords with
              | [] => Geometry.polygon [[]]
              | c0 :: rest => Geometry.polygon [c0 :: rest]
          , properties := [("name", Val.str "Coverage area")] } ] } )

/-! ### Configuration model (`pipeline/config.py`, `utils/validation.py`)

`validate_config` below is the embedding of
`mst_gis.utils.validation.validate_config`; a raised `ValidationError`
becomes `Except.error (VErr.validation msg)`.  A Python `TypeError`
(comparing a string against a numeric bound) and `KeyError` are kept
distinct from `ValidationError`, since `ConfigManager.validate` only
converts `ValidationError` into `ConfigError`. -/

/-- Errors arising while validating a configuration: the repository's
`ValidationError` (carrying its message), plus the builtin `KeyError` and
`TypeError` a malformed config would raise before validation reports
anything. -/
inductive VErr where
  | validation (msg : String)
  | keyError (key : String)
  | typeError
deriving DecidableEq, Repr

/-- Rendering of a list of names inside an f-string message
(`f"Missing CONFIG sections: {missing}"`).  Python would additionally
quote each element; the quoting is elided here, which preserves the
property the spec asserts — the message names the offending keys. -/
def renderNames : List String → String
  | [] => ""
  | [x] => x
  | x :: y :: rest => x ++ ", " ++ renderNames (y :: rest)

/-- Rendering of a numeric config value inside an f-string message. -/
def numStr (q : ℚ) : String := toString q

/-- Rendering of an arbitrary config value inside an f-string message. -/
def valStr : Val → String
  | Val.num q => numStr q
  | Val.str s => s

/-- `required_sections` in `validate_config`. -/
def required_sections : List String :=
  ["TRANSMITTER", "P1812", "RECEIVER_GENERATION", "LCM10_TO_CT", "CT_TO_R"]

/-- `required_tx_keys` in `validate_config` (note `tx_id` is not
required). -/
def required_tx_keys : List String :=
  ["latitude", "longitude", "antenna_height_tx", "antenna_height_rx"]

/-- `required_p1812` in `validate_config`. -/
def required_p1812_keys : List String :=
  ["frequency_ghz", "time_percentage", "polarization"]

/-- Python `sec[k]` followed by a numeric comparison: `KeyError` when the
key is absent, `TypeError` when the value is a string (Python refuses
`0.03 <= "x"`). -/
def getNumEntry (sec : Sect) (k : String) : Except VErr ℚ :=
  match assocFind sec (Key.s k) with
  | none => Except.error (VErr.keyError k)
  | some (Val.str _) => Except.error VErr.typeError
  | some (Val.num q) => Except.ok q

/-- `validate_config(config)` from `mst_gis/utils/validation.py`,
lines 123–153, check for check and message for message. -/
def validate_config (config : Config) : Except VErr Unit :=
  let missing := required_sections.filter fun sec => (assocFind config sec).isNone
  if missing ≠ [] then
    Except.error (VErr.validation ("Missing CONFIG sections: [" ++ renderNames missing ++ "]"))
  else
    let tx := (assocFind config "TRANSMITTER").getD []
    let missing_tx := required_tx_keys.filter fun k => (assocFind tx (Key.s k)).isNone
    if missing_tx ≠ [] then
      Except.error (VErr.validation ("Missing TRANSMITTER keys: [" ++ renderNames missing_tx ++ "]"))
    else
      let p1812 := (assocFind config "P1812").getD []
      let missing_p1812 := required_p1812_keys.filter fun k => (assocFind p1812 (Key.s k)).isNone
      if missing_p1812 ≠ [] then
        Except.error (VErr.validation ("Missing P1812 keys: [" ++ renderNames missing_p1812 ++ "]"))
      else
        match getNumEntry p1812 "frequency_ghz" with
        | Except.error e => Except.error e
        | Except.ok f =>
          if ¬ (mkRat 3 100 ≤ f ∧ f ≤ 6) then
            Except.error (VErr.validation
              ("Frequency " ++ numStr f ++ " outside valid range [0.03, 6]"))
          else
            match getNumEntry p1812 "time_percentage" with
            | Except.error e => Except.error e
            | Except.ok t =>
              if ¬ ((1 : ℚ) ≤ t ∧ t ≤ 50) then
                Except.error (VErr.validation
                  ("Time percentage " ++ numStr t ++ " outside valid range [1, 50]"))
              else
                match assocFind p1812 (Key.s "polarization") with
                | none => Except.error (VErr.keyError "polarization")
                | some pol =>
                  if pol ∉ [Val.num 1, Val.num 2] then
                    Except.error (VErr.validation
                      ("Polarization " ++ valStr pol ++ " must be 1 (H) or 2 (V)"))
                  else Except.ok ()

/-- The `TRANSMITTER` section dict of `DEFAULT_CONFIG`
(`mst_gis/pipeline/config.py`, floats as exact rationals). -/
def DEFAULT_TRANSMITTER : Sect :=
  [ (Key.s "tx_id", Val.str "TX_0001")
  , (Key.s "longitude", Val.num (mkRat (-1340694) 100000))  -- -13.40694
  , (Key.s "latitude", Val.num (mkRat 9345 1000))  -- 9.345
  , (Key.s "antenna_height_tx", Val.num 57)
  , (Key.s "antenna_height_rx", Val.num 10) ]

/-- The `P1812` section dict of `DEFAULT_CONFIG`. -/
def DEFAULT_P1812 : Sect :=
  [ (Key.s "frequency_ghz", Val.num (mkRat 9 10))  -- 0.9
  , (Key.s "time_percentage", Val.num 50)
  , (Key.s "polarization", Val.num 1) ]

/-- The `RECEIVER_GENERATION` section dict of `DEFAULT_CONFIG`. -/
def DEFAULT_RECEIVER_GENERATION : Sect :=
  [ (Key.s "max_distance_km", Val.num 11)
  , (Key.s "azimuth_step", Val.num 10)
  , (Key.s "distance_step", Val.num (mkRat 3 100))  -- 0.03
  , (Key.s "sampling_resolution", Val.num 30) ]

/-- The `SENTINEL_HUB` section dict of `DEFAULT_CONFIG`. -/
def DEFAULT_SENTINEL_HUB : Sect :=
  [ (Key.s "buffer_m", Val.num 11000)
  , (Key.s "chip_px", Val.num 734)
  , (Key.s "year", Val.num 2020) ]

/-- The `LCM10_TO_CT` section dict of `DEFAULT_CONFIG` (integer keys). -/
def DEFAULT_LCM10_TO_CT : Sect :=
  [ (Key.n 100, Val.num 1), (Key.n 80, Val.num 2), (Key.n 30, Val.num 2)
  , (Key.n 40, Val.num 2), (Key.n 70, Val.num 2), (Key.n 110, Val.num 2)
  , (Key.n 254, Val.num 2), (Key.n 20, Val.num 3), (Key.n 50, Val.num 3)
  , (Key.n 10, Val.num 4), (Key.n 60, Val.num 4), (Key.n 90, Val.num 4) ]

/-- The `CT_TO_R` section dict of `DEFAULT_CONFIG` (integer keys). -/
def DEFAULT_CT_TO_R : Sect :=
  [ (Key.n 1, Val.num 0), (Key.n 2, Val.num 0), (Key.n 3, Val.num 10)
  , (Key.n 4, Val.num 15), (Key.n 5, Val.num 20) ]

/-- `DEFAULT_CONFIG` from `mst_gis/pipeline/config.py`, entry for entry. -/
def DEFAULT_CONFIG : Config :=
  [ ("TRANSMITTER", DEFAULT_TRANSMITTER)
  , ("P1812", DEFAULT_P1812)
  , ("RECEIVER_GENERATION", DEFAULT_RECEIVER_GENERATION)
  , ("SENTINEL_HUB", DEFAULT_SENTINEL_HUB)
  , ("LCM10_TO_CT", DEFAULT_LCM10_TO_CT)
  , ("CT_TO_R", DEFAULT_CT_TO_R) ]

/-- `ConfigManager.get(section, key)` (value-level view of the manager's
`self.config`): `self.config.get(section, {}).get(key, None)`. -/
def ConfigManager.get (config : Config) (sec : String) (key : String) : Option Val :=
  (assocFind config sec).bind fun s => assocFind s (Key.s key)

/-- `ConfigManager.set(section, key, value)` (value-level view): the
Python method first mutates `self.config` (`self.config[section] = {}`
when the section is absent, then `self.config[section][key] = value`)
and only then calls `self.validate()`; a raised `ConfigError` leaves the
mutated dict in place.  The embedding returns the post-call state of
`self.config` together with the validation error, if any. -/
def ConfigManager.set (config : Config) (sec : String) (key : String) (value : Val) :
    Config × Option VErr :=
  let config :=
    if (assocFind config sec).isNone then assocSet config sec [] else config
  let config :=
    assocSet config sec (assocSet ((assocFind config sec).getD []) (Key.s key) value)
  ( config
  , match validate_config config with
    | Except.ok _ => none
    | Except.error e => some e )

/-! ### Batch orchestration (`propagation/batch_processor.py`)

`load_profiles` and `process_loss_parameters` live in
`mst_gis/propagation/profile_parser.py`, which is not present in the
sources, and `Py1812.P1812.bt_loss` is an external package; following
the spec (§1, §6) they are treated as black boxes: the profile list, the
profile-to-parameters step `f` and the loss computation `loss` are
parameters of the embedding.  Making `f` and `loss` Lean functions
encodes the spec's purity assumption about them. -/

/-- The three accumulators of the `for index, profile in
enumerate(profiles)` loop in `batch_processor.main`. -/
structure BatchState where
  points : List Feature
  lines : List Feature
  polygon_coords : List Coord
deriving DecidableEq, Repr

/-- One iteration of the processing loop in `batch_processor.main`
(lines 52–78): derive the parameters, compute the loss, emit the
transmitter feature on index 0 only, then the receiver feature, the
link feature, and the receiver's `(lon, lat)` into `polygon_coords`. -/
def batchStep {α : Type} (f : α → LossParameterSet) (loss : LossParameterSet → ℚ × ℚ)
    (st : BatchState) (ip : ℕ × α) : BatchState :=
  let parameters := f ip.2
  let LbEp := loss parameters
  let points :=
    if ip.1 = 0 then st.points ++ [generate_geojson_point_transmitter parameters]
    else st.points
  let points := points ++ [generate_geojson_point_receiver parameters (ip.1 + 1) LbEp.1 LbEp.2]
  { points := points
  , lines := st.lines ++ [generate_geojson_line parameters ip.1 LbEp.1 LbEp.2]
  , polygon_coords := st.polygon_coords ++ [(parameters.rxLon, parameters.rxLat)] }

/-- The whole processing loop of `batch_processor.main`, starting from
the three empty accumulators. -/
def batchLoop {α : Type} (f : α → LossParameterSet) (loss : LossParameterSet → ℚ × ℚ)
    (profiles : List α) : BatchState :=
  profiles.enum.foldl (batchStep f loss) ⟨[], [], []⟩

/-- The maximum-distance recomputation in `batch_processor.main`
(lines 84–88): `max_d_km = 0.0`, then for each profile re-derive the
parameters and fold `max(max_d_km, float(p[2][-1]))`. -/
def maxDistKm {α : Type} (f : α → LossParameterSet) (profiles : List α) : ℚ :=
  profiles.foldl (fun m pr => max m (lastDistance (f pr).d)) 0

/-- Python `f"{x:.1f}"` on the exact rational `q = num/den`: the tenths
digit is selected by rounding `10·q` to the nearest integer,
`⌊10·q + 1/2⌋ = (20·num + den) fdiv (2·den)`, computed here on the
numerator and denominator directly.  (Python rounds the underlying
binary double ties-to-even; on the tie-free values of the claims the two
roundings agree.) -/
def fmt1 (q : ℚ) : String :=
  let n : ℤ := Int.fdiv (20 * q.num + q.den) (2 * q.den)
  if n < 0 then "-" ++ toString ((-n) / 10) ++ "." ++ toString ((-n) % 10)
  else toString (n / 10) ++ "." ++ toString (n % 10)

/-- Python `s.replace(".", "p")`: with a one-character pattern and a
one-character replacement this is exactly a character map. -/
def replaceDotP (s : String) : String :=
  String.mk (s.data.map fun c => if c = '.' then 'p' else c)

/-- `d_tag = f"{max_d_km:.1f}".replace(".", "p") + "km"` from
`batch_processor.main`. -/
def dTag {α : Type} (f : α → LossParameterSet) (profiles : List α) : String :=
  replaceDotP (fmt1 (maxDistKm f profiles)) ++ "km"

/-- The wall-clock instant read by `time.strftime`, split into calendar
fields. -/
structure Timestamp where
  year : ℕ
  month : ℕ
  day : ℕ
  hour : ℕ
  minute : ℕ
  second : ℕ
deriving DecidableEq, Repr

/-- A two-digit zero-padded decimal field, as `strftime` renders
`%m`, `%d`, `%H`, `%M`, `%S`. -/
def pad2 (n : ℕ) : String :=
  String.mk [Nat.digitChar (n / 10 % 10), Nat.digitChar (n % 10)]

/-- A four-digit zero-padded decimal field, as `strftime` renders `%Y`
for years up to 9999. -/
def pad4 (n : ℕ) : String :=
  String.mk [Nat.digitChar (n / 1000 % 10), Nat.digitChar (n / 100 % 10),
             Nat.digitChar (n / 10 % 10), Nat.digitChar (n % 10)]

/-- `ts = time.strftime("%Y%m%d_%H%M%S")` from `batch_processor.main`,
rendered from the calendar fields of the run instant. -/
def strftimeRun (t : Timestamp) : String :=
  pad4 t.year ++ pad2 t.month ++ pad2 t.day ++ "_"
    ++ pad2 t.hour ++ pad2 t.minute ++ pad2 t.second

/-- `f"points_{d_tag}_{ts}.geojson"` from `batch_processor.main`. -/
def pointsFileName {α : Type} (f : α → LossParameterSet) (profiles : List α)
    (t : Timestamp) : String :=
  "points_" ++ dTag f profiles ++ "_" ++ strftimeRun t ++ ".geojson"

/-- `f"lines_{d_tag}_{ts}.geojson"` from `batch_processor.main`. -/
def linesFileName {α : Type} (f : α → LossParameterSet) (profiles : List α)
    (t : Timestamp) : String :=
  "lines_" ++ dTag f profiles ++ "_" ++ strftimeRun t ++ ".geojson"

/-- `f"polygon_{d_tag}_{ts}.geojson"` from `batch_processor.main`. -/
def polygonFileName {α : Type} (f : α → LossParameterSet) (profiles : List α)
    (t : Timestamp) : String :=
  "polygon_" ++ dTag f profiles ++ "_" ++ strftimeRun t ++ ".geojson"

/-! ### Phyllotaxis point generation (`propagation/point_generator.py`)

Modelled over the reals: `math.cos`, `math.sin`, `math.sqrt` and
`math.pi` become their exact real counterparts. -/

/-- `math.radians(x)`: degrees to radians. -/
noncomputable def radians (x : ℝ) : ℝ := x * (Real.pi / 180)

/-- `generate_phyllotaxis(lat0, lon0, num_points, scale)` from
`mst_gis/propagation/point_generator.py`, the `for i in
range(num_points)` loop with `points.append(...)` rendered as a fold
that extends the accumulator list. -/
noncomputable def generate_phyllotaxis (lat0 lon0 : ℝ) (num_points : ℕ) (scale : ℝ) :
    List (ℝ × ℝ) :=
  let golden_angle : ℝ := 2 * Real.pi * (1 - 1 / Real.sqrt 5)
  (List.range num_points).foldl
    (fun points (i : ℕ) =>
      let angle : ℝ := i * golden_angle
      let radius : ℝ := scale * Real.sqrt (((i : ℝ) + 0.5) / (num_points : ℝ))
      let x := radius * Real.cos angle
      let y := radius * Real.sin angle
      let delta_lat := y / 111320
      let delta_lon := x / (111320 * Real.cos (radians lat0))
      points ++ [(lat0 + delta_lat, lon0 + delta_lon)])
    []

/-! ### Heap model of `ConfigManager` construction (`pipeline/config.py`)

`ConfigManager.__init__` runs `self.config = DEFAULT_CONFIG.copy()` — a
*shallow* copy: the new top-level dict holds the very same section dict
objects as the module-level `DEFAULT_CONFIG`.  To reason about this
aliasing the section dicts live on an explicit heap of addresses; the
top-level dicts (`DEFAULT_CONFIG`'s and each manager's `self.config`)
map section names to heap addresses. -/

/-- Address of a Python dict object on the heap. -/
abbrev Addr := ℕ

/-- The mutable world: the heap of section dict objects, a fresh-address
counter, and the module-level `DEFAULT_CONFIG` top-level dict. -/
structure World where
  heap : Addr → Sect
  next : Addr
  defaultTop : List (String × Addr)

/-- A `ConfigManager` instance: its `self.config` top-level dict,
mapping section names to the addresses of the (possibly shared) section
dict objects. -/
structure Mgr where
  top : List (String × Addr)

/-- The configuration value a manager observes: each section name
dereferenced through the heap. -/
def mgrConfig (w : World) (m : Mgr) : Config :=
  m.top.map fun sa => (sa.1, w.heap sa.2)

/-- `ConfigManager.get(section, key)` reading through the heap. -/
def mgrGet (w : World) (m : Mgr) (sec : String) (key : String) : Option Val :=
  (assocFind m.top sec).bind fun a => assocFind (w.heap a) (Key.s key)

/-- What `DEFAULT_CONFIG` itself now contains at `section → key`,
reading through the heap. -/
def defaultConfigValue (w : World) (sec : String) (key : String) : Option Val :=
  (assocFind w.defaultTop sec).bind fun a => assocFind (w.heap a) (Key.s key)

/-- `self.config = DEFAULT_CONFIG.copy()`: a fresh top-level dict with
the same section addresses; no heap object is copied. -/
def mkManager (w : World) : Mgr × World :=
  ({ top := w.defaultTop }, w)

/-- The leaf pass of `ConfigManager._deep_update` on one section dict:
`target[key] = value` for each override entry (the override sections
hold scalars, so the recursive dict branch is not re-entered below
section level). -/
def sectUpdate (target : Sect) (source : Sect) : Sect :=
  source.foldl (fun t kv => assocSet t kv.1 kv.2) target

/-- `ConfigManager._deep_update(self.config, config)` at the top level:
for each override section, if the name is already bound in `self.config`
the *shared* section dict object is updated in place on the heap;
otherwise the override's dict object is installed at a fresh address. -/
def deepUpdate (w : World) (m : Mgr) (override : List (String × Sect)) : World × Mgr :=
  override.foldl
    (fun wm kv =>
      match assocFind wm.2.top kv.1 with
      | some a =>
          ( { wm.1 with
                heap := fun a' =>
                  if a' = a then sectUpdate (wm.1.heap a') kv.2 else wm.1.heap a' }
          , wm.2 )
      | none =>
          ( { heap := fun a' => if a' = wm.1.next then kv.2 else wm.1.heap a'
            , next := wm.1.next + 1
            , defaultTop := wm.1.defaultTop }
          , { top := assocSet wm.2.top kv.1 wm.1.next } ))
    (w, m)

/-- `ConfigManager.__init__(config)` with a non-`None` override:
shallow-copy the defaults, then deep-merge the override (then
`self.validate()`, which reads but does not write). -/
def mkManagerWith (w : World) (override : List (String × Sect)) : Mgr × World :=
  let m : Mgr := { top := w.defaultTop }
  let wm := deepUpdate w m override
  (wm.2, wm.1)

/-- `ConfigManager.set(section, key, value)` in the heap model: when the
section exists, `self.config[section][key] = value` writes into the
(possibly shared) section dict object; when it does not,
`self.config[section] = {}` installs a fresh empty dict first.  The
final `self.validate()` reads the materialised config; on failure the
mutation is already done. -/
def mgrSet (w : World) (m : Mgr) (sec : String) (key : String) (value : Val) :
    World × Mgr × Option VErr :=
  match assocFind m.top sec with
  | some a =>
      let w' := { w with
        heap := fun a' =>
          if a' = a then assocSet (w.heap a') (Key.s key) value else w.heap a' }
      ( w', m
      , match validate_config (mgrConfig w' m) with
        | Except.ok _ => none
        | Except.error e => some e )
  | none =>
      let a := w.next
      let w' : World :=
        { heap := fun a' =>
            if a' = a then assocSet [] (Key.s key) value else w.heap a'
        , next := w.next + 1
        , defaultTop := w.defaultTop }
      let m' : Mgr := { top := assocSet m.top sec a }
      ( w', m'
      , match validate_config (mgrConfig w' m') with
        | Except.ok _ => none
        | Except.error e => some e )

/-- A world in which the module has just been imported: the six default
section dicts live at addresses 0–5 and `DEFAULT_CONFIG` points at
them. -/
def initWorld : World :=
  { heap := fun a =>
      match a with
      | 0 => DEFAULT_TRANSMITTER
      | 1 => DEFAULT_P1812
      | 2 => DEFAULT_RECEIVER_GENERATION
      | 3 => DEFAULT_SENTINEL_HUB
      | 4 => DEFAULT_LCM10_TO_CT
      | 5 => DEFAULT_CT_TO_R
      | _ => []
  , next := 6
  , defaultTop :=
      [ ("TRANSMITTER", 0), ("P1812", 1), ("RECEIVER_GENERATION", 2)
      , ("SENTINEL_HUB", 3), ("LCM10_TO_CT", 4), ("CT_TO_R", 5) ] }

/-! ## Claims -/

/-- C4: for every input coordinate list, `generate_geojson_polygon`
returns a singleton feature collection containing one polygon feature
with property `name = "Coverage area"` whose ring equals the input with
the first vertex appended when the input is non-empty and its last
vertex differs from its first, equals the input unchanged when the last
vertex already equals the first, and is the empty ring when the input is
empty; the empty input does not raise (the function is total). -/
theorem c4_generate_geojson_polygon (cs : List Coord) :
    (generate_geojson_polygon cs).2.features =
      [ { geometry := Geometry.polygon [(generate_geojson_polygon cs).1]
        , properties := [("name", Val.str "Coverage area")] } ] ∧
    (cs = [] → (generate_geojson_polygon cs).1 = []) ∧
    (∀ a b, cs.head? = some a → cs.getLast? = some b → a ≠ b →
      (generate_geojson_polygon cs).1 = cs ++ [a]) ∧
    (∀ a, cs.head? = some a → cs.getLast? = some a →
      (generate_geojson_polygon cs).1 = cs) := by
  cases cs with
  | nil => simp [generate_geojson_polygon]
  | cons c0 rest =>
      refine ⟨?_, ?_, ?_, ?_⟩
      · by_cases h : (c0 :: rest).getLast (List.cons_ne_nil c0 rest) ≠ c0
        · simp only [generate_geojson_polygon, if_pos h]
          simp
        · simp only [generate_geojson_polygon, if_neg h]
      · intro h; exact absurd h (List.cons_ne_nil c0 rest)
      · intro a b ha hb hab
        have ha' : a = c0 := by simpa using ha.symm
        have hb' : (c0 :: rest).getLast (List.cons_ne_nil c0 rest) = b := by
          rw [List.getLast?_eq_getLast _ (List.cons_ne_nil c0 rest)] at hb
          exact Option.some.inj hb
        have h : (c0 :: rest).getLast (List.cons_ne_nil c0 rest) ≠ c0 := by
          rw [hb']; exact fun hc => hab (by rw [ha', hc])
        subst ha'
        simp only [generate_geojson_polygon, if_pos h]
      · intro a ha hlast
        have ha' : a = c0 := by simpa using ha.symm
        have h : ¬ (c0 :: rest).getLast (List.cons_ne_nil c0 rest) ≠ c0 := by
          rw [List.getLast?_eq_getLast _ (List.cons_ne_nil c0 rest)] at hlast
          have := Option.some.inj hlast
          simp [this, ha']
        simp only [generate_geojson_polygon, if_neg h]

/-- C4 witness: the theorem applied at the spec's own example ring
`[(0,0),(1,0),(1,1)]`, whose closure appends `(0,0)`. -/
theorem c4_witness :
    ([((0 : ℚ), (0 : ℚ)), (1, 0), (1, 1)] : List Coord) ≠ [] ∧
    (generate_geojson_polygon [((0 : ℚ), (0 : ℚ)), (1, 0), (1, 1)]).1 =
      [((0 : ℚ), (0 : ℚ)), (1, 0), (1, 1)] ++ [(0, 0)] :=
  ⟨by decide,
   (c4_generate_geojson_polygon [((0 : ℚ), (0 : ℚ)), (1, 0), (1, 1)]).2.2.1
      (0, 0) (1, 1) rfl (by decide) (by decide)⟩

/-- C5 counterexample: the claim "the coordinate list passed to
`generate_geojson_polygon` is left unchanged by the call" is false —
the Python function appends the closing vertex to the caller's list in
place.  At input `[(0,0),(1,0)]` the list afterwards is
`[(0,0),(1,0),(0,0)]`, not the original. -/
theorem c5_counterexample :
    (generate_geojson_polygon [((0 : ℚ), (0 : ℚ)), (1, 0)]).1 ≠
      [((0 : ℚ), (0 : ℚ)), (1, 0)] := by decide

/-- C5 amended: the three point/line construction functions are pure
functions of their arguments, and `generate_geojson_polygon`'s result
also depends only on its argument; but `generate_geojson_polygon`
mutates the coordinate list passed to it: the caller's list is left
unchanged if and only if it is empty or already closed (first vertex
equals last), and otherwise the call appends the first vertex to it. -/
theorem c5_polygon_mutation (cs : List Coord) :
    ((generate_geojson_polygon cs).1 = cs ↔ cs = [] ∨ cs.head? = cs.getLast?) ∧
    ((generate_geojson_polygon cs).1 = cs ∨
      ∃ a, cs.head? = some a ∧ (generate_geojson_polygon cs).1 = cs ++ [a]) := by
  cases cs with
  | nil => simp [generate_geojson_polygon]
  | cons c0 rest =>
      by_cases h : (c0 :: rest).getLast (List.cons_ne_nil c0 rest) ≠ c0
      · constructor
        · simp only [generate_geojson_polygon, if_pos h]
          constructor
          · intro hc
            exact absurd (congrArg List.length hc) (by simp)
          · rintro (hc | hc)
            · exact absurd hc (List.cons_ne_nil c0 rest)
            · rw [List.getLast?_eq_getLast _ (List.cons_ne_nil c0 rest)] at hc
              have : c0 = (c0 :: rest).getLast (List.cons_ne_nil c0 rest) := by
                simpa using hc
              exact absurd this.symm h
        · right
          refine ⟨c0, rfl, ?_⟩
          simp only [generate_geojson_polygon, if_pos h]
      · constructor
        · simp only [generate_geojson_polygon, if_neg h]
          simp only [true_iff]
          right
          rw [List.getLast?_eq_getLast _ (List.cons_ne_nil c0 rest)]
          rw [not_not] at h
          simp [h]
        · left
          simp only [generate_geojson_polygon, if_neg h]

/-- C10: a batch run with exactly one profile accumulates exactly the
single receiver's `(lon, lat)`; `generate_geojson_polygon` on that
singleton appends no closing vertex (its first coordinate equals its
last), so the coverage polygon's ring contains exactly one coordinate —
the receiver position; and in general whenever the first coordinate
equals the last no closing vertex is appended. -/
theorem c10_single_profile_ring {α : Type} (f : α → LossParameterSet)
    (loss : LossParameterSet → ℚ × ℚ) (pr : α) :
    (batchLoop f loss [pr]).polygon_coords = [((f pr).rxLon, (f pr).rxLat)] ∧
    (generate_geojson_polygon (batchLoop f loss [pr]).polygon_coords).2.features =
      [ { geometry := Geometry.polygon [[((f pr).rxLon, (f pr).rxLat)]]
        , properties := [("name", Val.str "Coverage area")] } ] ∧
    (∀ cs : List Coord, cs.head? = cs.getLast? → (generate_geojson_polygon cs).1 = cs) := by
  refine ⟨rfl, ?_, ?_⟩
  · have e1 : (batchLoop f loss [pr]).polygon_coords = [((f pr).rxLon, (f pr).rxLat)] := rfl
    rw [e1]
    have h : ¬ ([((f pr).rxLon, (f pr).rxLat)].getLast
        (List.cons_ne_nil _ _) ≠ ((f pr).rxLon, (f pr).rxLat)) := by
      simp [List.getLast]
    simp only [generate_geojson_polygon, if_neg h]
  · intro cs hc
    cases cs with
    | nil => simp [generate_geojson_polygon]
    | cons c0 rest =>
        rw [List.getLast?_eq_getLast _ (List.cons_ne_nil c0 rest)] at hc
        have hcc : c0 = (c0 :: rest).getLast (List.cons_ne_nil c0 rest) := by
          simpa using hc
        have h : ¬ (c0 :: rest).getLast (List.cons_ne_nil c0 rest) ≠ c0 := by
          rw [← hcc]; exact fun hne => hne rfl
        simp only [generate_geojson_polygon, if_neg h]

/-- C10 witness: the theorem applied at a concrete one-profile run. -/
theorem c10_witness :
    ([((3 : ℚ), (4 : ℚ))] : List Coord).head? = [((3 : ℚ), (4 : ℚ))].getLast? ∧
    (generate_geojson_polygon (batchLoop (fun ps : LossParameterSet => ps)
        (fun _ => (0, 0))
        [({ f := 1, p := 50, d := [2], htg := 57, hrg := 10, pol := 1
          , txLat := 9, rxLat := 4, txLon := -13, rxLon := 3 } : LossParameterSet)]
      ).polygon_coords).2.features =
      [ { geometry := Geometry.polygon [[((3 : ℚ), (4 : ℚ))]]
        , properties := [("name", Val.str "Coverage area")] } ] :=
  ⟨by decide,
   (c10_single_profile_ring (fun ps : LossParameterSet => ps) (fun _ => (0, 0))
      ({ f := 1, p := 50, d := [2], htg := 57, hrg := 10, pol := 1
       , txLat := 9, rxLat := 4, txLon := -13, rxLon := 3 })).2.1⟩

/-- Folding `points.append(x)` over a list builds the map of the loop
body over the loop range. -/
theorem foldl_append_singleton {α β : Type} (g : α → β) :
    ∀ (l : List α) (acc : List β),
      l.foldl (fun points i => points ++ [g i]) acc = acc ++ l.map g := by
  intro l
  induction l with
  | nil => intro acc; simp
  | cons hd tl ih =>
      intro acc
      simp only [List.foldl_cons, List.map_cons, ih]
      simp

/-- C1: for every `lat0`, `lon0`, `scale` and every `n ≥ 0`,
`generate_phyllotaxis(lat0, lon0, n, scale)` returns a sequence of
exactly `n` `(lat, lon)` pairs whose i-th pair (0-indexed) is
`(lat0 + y/111320, lon0 + x/(111320·cos(lat0 in radians)))` with
`x = r·cos(i·φ)`, `y = r·sin(i·φ)`, `r = scale·sqrt((i+0.5)/n)` and
`φ = 2π(1 − 1/√5)`; in particular `n = 0` yields the empty sequence, and
— the function being total over all real latitudes and longitudes — no
input raises. -/
theorem c1_generate_phyllotaxis (lat0 lon0 scale : ℝ) (n : ℕ) :
    (generate_phyllotaxis lat0 lon0 n scale).length = n ∧
    generate_phyllotaxis lat0 lon0 0 scale = [] ∧
    ∀ i : ℕ, i < n →
      (generate_phyllotaxis lat0 lon0 n scale).get? i =
        some ( lat0 + (scale * Real.sqrt (((i : ℝ) + 0.5) / (n : ℝ)) *
                 Real.sin ((i : ℝ) * (2 * Real.pi * (1 - 1 / Real.sqrt 5)))) / 111320
             , lon0 + (scale * Real.sqrt (((i : ℝ) + 0.5) / (n : ℝ)) *
                 Real.cos ((i : ℝ) * (2 * Real.pi * (1 - 1 / Real.sqrt 5)))) /
                 (111320 * Real.cos (radians lat0)) ) := by
  have hmap : ∀ m : ℕ, generate_phyllotaxis lat0 lon0 m scale =
      (List.range m).map (fun i : ℕ =>
        ( lat0 + (scale * Real.sqrt (((i : ℝ) + 0.5) / (m : ℝ)) *
            Real.sin ((i : ℝ) * (2 * Real.pi * (1 - 1 / Real.sqrt 5)))) / 111320
        , lon0 + (scale * Real.sqrt (((i : ℝ) + 0.5) / (m : ℝ)) *
            Real.cos ((i : ℝ) * (2 * Real.pi * (1 - 1 / Real.sqrt 5)))) /
            (111320 * Real.cos (radians lat0)) )) := by
    intro m
    have hg : generate_phyllotaxis lat0 lon0 m scale =
        @List.foldl (List (ℝ × ℝ)) ℕ
          (fun points i => points ++
            [( lat0 + (scale * Real.sqrt (((i : ℝ) + 0.5) / (m : ℝ)) *
                 Real.sin ((i : ℝ) * (2 * Real.pi * (1 - 1 / Real.sqrt 5)))) / 111320
             , lon0 + (scale * Real.sqrt (((i : ℝ) + 0.5) / (m : ℝ)) *
                 Real.cos ((i : ℝ) * (2 * Real.pi * (1 - 1 / Real.sqrt 5)))) /
                 (111320 * Real.cos (radians lat0)) )]) [] (List.range m) := rfl
    rw [hg]
    exact (foldl_append_singleton (fun i : ℕ =>
      ( lat0 + (scale * Real.sqrt (((i : ℝ) + 0.5) / (m : ℝ)) *
          Real.sin ((i : ℝ) * (2 * Real.pi * (1 - 1 / Real.sqrt 5)))) / 111320
      , lon0 + (scale * Real.sqrt (((i : ℝ) + 0.5) / (m : ℝ)) *
          Real.cos ((i : ℝ) * (2 * Real.pi * (1 - 1 / Real.sqrt 5)))) /
          (111320 * Real.cos (radians lat0)) )) (List.range m) []).trans
      (List.nil_append _)
  refine ⟨?_, ?_, ?_⟩
  · rw [hmap]; simp
  · rw [hmap]; simp
  · intro i hi
    rw [hmap, List.get?_map, List.get?_range hi]
    rfl

/-- C1 witness: the theorem applied at `lat0 = 0`, `lon0 = 0`, `n = 1`,
`scale = 1`, `i = 0`. -/
theorem c1_witness :
    0 < 1 ∧
    (generate_phyllotaxis 0 0 1 1).get? 0 =
      some ( 0 + (1 * Real.sqrt ((((0 : ℕ) : ℝ) + 0.5) / ((1 : ℕ) : ℝ)) *
               Real.sin (((0 : ℕ) : ℝ) * (2 * Real.pi * (1 - 1 / Real.sqrt 5)))) / 111320
           , 0 + (1 * Real.sqrt ((((0 : ℕ) : ℝ) + 0.5) / ((1 : ℕ) : ℝ)) *
               Real.cos (((0 : ℕ) : ℝ) * (2 * Real.pi * (1 - 1 / Real.sqrt 5)))) /
               (111320 * Real.cos (radians 0)) ) :=
  ⟨by decide, (c1_generate_phyllotaxis 0 0 1 1).2.2 0 (by decide)⟩

/-- After `ConfigManager.set(section, key, value)`, reading the same
section and key through `get` always yields the value just written,
whether or not validation failed. -/
theorem get_after_set (c : Config) (sec key : String) (v : Val) :
    ConfigManager.get (ConfigManager.set c sec key v).1 sec key = some v := by
  unfold ConfigManager.set ConfigManager.get
  simp [assocFind_assocSet_self]

/-- C3 counterexample: the claim "if the new value makes validation
fail, the call raises and the configuration observable through `get`
afterwards is unchanged" is false.  Starting from the (valid) defaults,
`set("P1812", "frequency_ghz", 10)` raises — and the out-of-range value
10 is what `get` observes afterwards, not the pre-call 0.9. -/
theorem c3_counterexample :
    validate_config DEFAULT_CONFIG = Except.ok () ∧
    (ConfigManager.set DEFAULT_CONFIG "P1812" "frequency_ghz" (Val.num 10)).2 ≠ none ∧
    ConfigManager.get (ConfigManager.set DEFAULT_CONFIG "P1812" "frequency_ghz"
        (Val.num 10)).1 "P1812" "frequency_ghz" = some (Val.num 10) ∧
    ConfigManager.get DEFAULT_CONFIG "P1812" "frequency_ghz" = some (Val.num (mkRat 9 10)) := by
  refine ⟨by decide, by decide, by decide, by decide⟩

/-- C3 amended: for every configuration that currently passes validation,
a `set(section, key, value)` whose new value makes validation fail does
raise that configuration error, but the store is left in the invalid
state: `get` afterwards observes the new value (the mutation precedes
validation and is not rolled back). -/
theorem c3_set_leaves_invalid_state (c : Config) (sec key : String) (v : Val)
    (hpre : validate_config c = Except.ok ()) (e : VErr)
    (hbad : validate_config (ConfigManager.set c sec key v).1 = Except.error e) :
    (ConfigManager.set c sec key v).2 = some e ∧
    ConfigManager.get (ConfigManager.set c sec key v).1 sec key = some v := by
  refine ⟨?_, get_after_set c sec key v⟩
  unfold ConfigManager.set at hbad ⊢
  simp only at hbad ⊢
  rw [hbad]

/-- C3 witness: the amended theorem applied at the defaults with the
out-of-range frequency 10. -/
theorem c3_witness :
    validate_config DEFAULT_CONFIG = Except.ok () ∧
    validate_config (ConfigManager.set DEFAULT_CONFIG "P1812" "frequency_ghz"
        (Val.num 10)).1 =
      Except.error (VErr.validation "Frequency 10 outside valid range [0.03, 6]") ∧
    (ConfigManager.set DEFAULT_CONFIG "P1812" "frequency_ghz" (Val.num 10)).2 =
      some (VErr.validation "Frequency 10 outside valid range [0.03, 6]") ∧
    ConfigManager.get (ConfigManager.set DEFAULT_CONFIG "P1812" "frequency_ghz"
        (Val.num 10)).1 "P1812" "frequency_ghz" = some (Val.num 10) :=
  ⟨by decide, by decide,
   (c3_set_leaves_invalid_state DEFAULT_CONFIG "P1812" "frequency_ghz" (Val.num 10)
      (by decide) _ (by decide)).1,
   (c3_set_leaves_invalid_state DEFAULT_CONFIG "P1812" "frequency_ghz" (Val.num 10)
      (by decide) (VErr.validation "Frequency 10 outside valid range [0.03, 6]")
      (by decide)).2⟩

/-- C9: `ConfigManager.__init__` takes only a shallow copy of
`DEFAULT_CONFIG`, so section dicts are shared: any manager whose `top`
maps a section name to the same heap address as `DEFAULT_CONFIG` (which
is what the shallow copy produces — first conjunct) writes through that
shared address on `set`, after which `DEFAULT_CONFIG` itself, every
other such manager, and a manager constructed later from the defaults
all observe the new value through `get`; likewise constructing a manager
with an override for an existing nested section mutates `DEFAULT_CONFIG`
in place. -/
theorem c9_shared_default_sections (w : World) (m1 m2 : Mgr) (sec key : String)
    (a : Addr) (v : Val)
    (hd : assocFind w.defaultTop sec = some a)
    (h1 : assocFind m1.top sec = some a)
    (h2 : assocFind m2.top sec = some a) :
    (mkManager w).1.top = w.defaultTop ∧
    defaultConfigValue (mgrSet w m1 sec key v).1 sec key = some v ∧
    mgrGet (mgrSet w m1 sec key v).1 m2 sec key = some v ∧
    mgrGet (mgrSet w m1 sec key v).1 (mkManager (mgrSet w m1 sec key v).1).1 sec key = some v ∧
    defaultConfigValue (mkManagerWith w [(sec, [(Key.s key, v)])]).2 sec key = some v := by
  have e : (mgrSet w m1 sec key v).1 =
      { w with heap := fun a' =>
          if a' = a then assocSet (w.heap a') (Key.s key) v else w.heap a' } := by
    unfold mgrSet
    rw [h1]
  refine ⟨rfl, ?_, ?_, ?_, ?_⟩
  · simp [defaultConfigValue, e, hd, assocFind_assocSet_self]
  · simp [mgrGet, e, h2, assocFind_assocSet_self]
  · simp [mgrGet, mkManager, e, hd, assocFind_assocSet_self]
  · simp [mkManagerWith, deepUpdate, hd, sectUpdate, defaultConfigValue,
      assocFind_assocSet_self]

/-- C9 witness: the theorem applied in the freshly-imported world, with
two managers shallow-copied from the defaults and a `set` of
`frequency_ghz` on the first. -/
theorem c9_witness :
    assocFind initWorld.defaultTop "P1812" = some 1 ∧
    assocFind (mkManager initWorld).1.top "P1812" = some 1 ∧
    (defaultConfigValue (mgrSet initWorld (mkManager initWorld).1 "P1812"
        "frequency_ghz" (Val.num 2)).1 "P1812" "frequency_ghz" = some (Val.num 2) ∧
     mgrGet (mgrSet initWorld (mkManager initWorld).1 "P1812"
        "frequency_ghz" (Val.num 2)).1 (mkManager initWorld).1 "P1812"
        "frequency_ghz" = some (Val.num 2)) :=
  ⟨by decide, by decide,
   (c9_shared_default_sections initWorld (mkManager initWorld).1 (mkManager initWorld).1
      "P1812" "frequency_ghz" 1 (Val.num 2) (by decide) (by decide) (by decide)).2.1,
   (c9_shared_default_sections initWorld (mkManager initWorld).1 (mkManager initWorld).1
      "P1812" "frequency_ghz" 1 (Val.num 2) (by decide) (by decide) (by decide)).2.2.1⟩

/-- The `name` property of a receiver feature. -/
theorem featureName_receiver (ps : LossParameterSet) (n : ℕ) (Lb Ep : ℚ) :
    featureName (generate_geojson_point_receiver ps n Lb Ep) =
      some (Val.str ("Receiver_" ++ toString n)) := rfl

/-- The `name` property of a link feature. -/
theorem featureName_line (ps : LossParameterSet) (i : ℕ) (Lb Ep : ℚ) :
    featureName (generate_geojson_line ps i Lb Ep) =
      some (Val.str ("Link_" ++ toString (i + 1))) := rfl

/-- Iterations of the processing loop at enumeration index ≥ 1 never
emit the transmitter feature and append one receiver, one link and one
coordinate per profile. -/
theorem batchLoop_enumFrom {α : Type} (f : α → LossParameterSet)
    (loss : LossParameterSet → ℚ × ℚ) :
    ∀ (l : List α) (k : ℕ) (st : BatchState), 1 ≤ k →
      (List.enumFrom k l).foldl (batchStep f loss) st =
        { points := st.points ++ (List.enumFrom k l).map (fun ip =>
            generate_geojson_point_receiver (f ip.2) (ip.1 + 1)
              (loss (f ip.2)).1 (loss (f ip.2)).2)
        , lines := st.lines ++ (List.enumFrom k l).map (fun ip =>
            generate_geojson_line (f ip.2) ip.1 (loss (f ip.2)).1 (loss (f ip.2)).2)
        , polygon_coords :=
            st.polygon_coords ++ l.map (fun pr => ((f pr).rxLon, (f pr).rxLat)) } := by
  intro l
  induction l with
  | nil => intro k st hk; simp [List.enumFrom]
  | cons hd tl ih =>
      intro k st hk
      rw [List.enumFrom_cons, List.foldl_cons, ih (k + 1) _ (by omega)]
      have hk0 : k ≠ 0 := by omega
      simp [batchStep, hk0, List.append_assoc]

/-- C6: over an ordered sequence of `N ≥ 1` profiles, the points
collection is exactly the transmitter feature (emitted on the first
profile) followed by the `N` receiver features, named
`Receiver_1 … Receiver_N` in processing order; the lines collection is
exactly the `N` link features, named `Link_1 … Link_N`; and
`polygon_coords` accumulates the `N` receiver `(lon, lat)` pairs in
processing order. -/
theorem c6_batch_collections {α : Type} (f : α → LossParameterSet)
    (loss : LossParameterSet → ℚ × ℚ) (p : α) (rest : List α) :
    (batchLoop f loss (p :: rest)).points =
      generate_geojson_point_transmitter (f p) ::
        (p :: rest).enum.map (fun ip =>
          generate_geojson_point_receiver (f ip.2) (ip.1 + 1)
            (loss (f ip.2)).1 (loss (f ip.2)).2) ∧
    (batchLoop f loss (p :: rest)).points.map featureName =
      some (Val.str "Transmitter") ::
        (List.range (p :: rest).length).map (fun i =>
          some (Val.str ("Receiver_" ++ toString (i + 1)))) ∧
    (batchLoop f loss (p :: rest)).lines =
      (p :: rest).enum.map (fun ip =>
        generate_geojson_line (f ip.2) ip.1 (loss (f ip.2)).1 (loss (f ip.2)).2) ∧
    (batchLoop f loss (p :: rest)).lines.map featureName =
      (List.range (p :: rest).length).map (fun i =>
        some (Val.str ("Link_" ++ toString (i + 1)))) ∧
    (batchLoop f loss (p :: rest)).polygon_coords =
      (p :: rest).map (fun pr => ((f pr).rxLon, (f pr).rxLat)) := by
  have hb : batchLoop f loss (p :: rest) =
      { points := generate_geojson_point_transmitter (f p) ::
          (p :: rest).enum.map (fun ip =>
            generate_geojson_point_receiver (f ip.2) (ip.1 + 1)
              (loss (f ip.2)).1 (loss (f ip.2)).2)
      , lines := (p :: rest).enum.map (fun ip =>
          generate_geojson_line (f ip.2) ip.1 (loss (f ip.2)).1 (loss (f ip.2)).2)
      , polygon_coords := (p :: rest).map (fun pr => ((f pr).rxLon, (f pr).rxLat)) } := by
    unfold batchLoop
    have he : List.enum (p :: rest) = (0, p) :: List.enumFrom 1 rest := rfl
    rw [he, List.foldl_cons, batchLoop_enumFrom f loss rest 1 _ (by omega)]
    simp [batchStep, List.enumFrom_cons, List.enum]
  refine ⟨?_, ?_, ?_, ?_, ?_⟩
  · rw [hb]
  · rw [hb]
    simp only [List.map_cons, List.map_map]
    have h1 : featureName (generate_geojson_point_transmitter (f p)) =
        some (Val.str "Transmitter") := rfl
    rw [h1]
    congr 1
    have h2 : ((p :: rest).enum.map Prod.fst).map
        (fun i => some (Val.str ("Receiver_" ++ toString (i + 1)))) =
        (List.range (p :: rest).length).map
          (fun i => some (Val.str ("Receiver_" ++ toString (i + 1)))) := by
      rw [List.enum_map_fst]
    rw [← h2, List.map_map]
    rfl
  · rw [hb]
  · rw [hb]
    simp only [List.map_map]
    have h2 : ((p :: rest).enum.map Prod.fst).map
        (fun i => some (Val.str ("Link_" ++ toString (i + 1)))) =
        (List.range (p :: rest).length).map
          (fun i => some (Val.str ("Link_" ++ toString (i + 1)))) := by
      rw [List.enum_map_fst]
    rw [← h2, List.map_map]
    rfl
  · rw [hb]

/-- The true maximum of a list of path distances (the spec's `Dmax`):
the head for a singleton, folding `max` across the tail. -/
def listMaxQ : List ℚ → ℚ
  | [] => 0
  | x :: xs => xs.foldl max x

/-- The code's `max_d_km` fold (initialised at `0.0`) agrees with the
true maximum on a nonempty list of nonnegative values. -/
theorem foldl_max_zero_eq_listMaxQ (l : List ℚ)
    (hnn : ∀ x ∈ l, 0 ≤ x) (hne : l ≠ []) :
    l.foldl max 0 = listMaxQ l := by
  cases l with
  | nil => exact absurd rfl hne
  | cons x xs =>
      have hx : max 0 x = x := max_eq_right (hnn x (List.mem_cons_self x xs))
      simp only [listMaxQ, List.foldl_cons, hx]

/-- The code's recomputed `max_d_km` over profiles equals the fold over
the per-profile last distances. -/
theorem maxDistKm_eq_foldl_map {α : Type} (f : α → LossParameterSet)
    (profiles : List α) :
    maxDistKm f profiles =
      (profiles.map (fun pr => lastDistance (f pr).d)).foldl max 0 := by
  rw [maxDistKm, List.foldl_map]

/-- Characters produced by the zero-padded decimal fields are decimal
digits. -/
theorem digitChar_mod_ten_isDigit (x : ℕ) :
    (Nat.digitChar (x % 10)).isDigit = true := by
  have h : x % 10 < 10 := Nat.mod_lt _ (by norm_num)
  have hall : ∀ m : ℕ, m < 10 → (Nat.digitChar m).isDigit = true := by decide
  exact hall _ h

/-- Every character of a `pad2` field is a decimal digit. -/
theorem mem_pad2_isDigit (n : ℕ) (c : Char) (hc : c ∈ (pad2 n).data) :
    c.isDigit = true := by
  simp only [pad2, List.mem_cons, List.not_mem_nil, or_false] at hc
  rcases hc with rfl | rfl <;> exact digitChar_mod_ten_isDigit _

/-- Every character of a `pad4` field is a decimal digit. -/
theorem mem_pad4_isDigit (n : ℕ) (c : Char) (hc : c ∈ (pad4 n).data) :
    c.isDigit = true := by
  simp only [pad4, List.mem_cons, List.not_mem_nil, or_false] at hc
  rcases hc with rfl | rfl | rfl | rfl <;> exact digitChar_mod_ten_isDigit _

/-- C7: the three output file names are `points_<tag>_<ts>.geojson`,
`lines_<tag>_<ts>.geojson` and `polygon_<tag>_<ts>.geojson` with the
same tag and timestamp, where the tag is the maximum over all profiles
of the last element of the profile's distance sequence, formatted to one
decimal place with the decimal point replaced by `p` and suffixed `km`,
and the timestamp renders as `YYYYMMDD_HHMMSS` (eight digits, an
underscore, six digits).  Nonnegativity of the distances makes the
code's `max(0.0, ·)` fold agree with the true maximum. -/
theorem c7_output_file_names {α : Type} (f : α → LossParameterSet)
    (p : α) (rest : List α) (t : Timestamp)
    (hnn : ∀ pr ∈ p :: rest, 0 ≤ lastDistance (f pr).d) :
    (pointsFileName f (p :: rest) t =
      "points_" ++
        (replaceDotP (fmt1 (listMaxQ
          ((p :: rest).map (fun pr => lastDistance (f pr).d)))) ++ "km") ++
        "_" ++ strftimeRun t ++ ".geojson") ∧
    (linesFileName f (p :: rest) t =
      "lines_" ++
        (replaceDotP (fmt1 (listMaxQ
          ((p :: rest).map (fun pr => lastDistance (f pr).d)))) ++ "km") ++
        "_" ++ strftimeRun t ++ ".geojson") ∧
    (polygonFileName f (p :: rest) t =
      "polygon_" ++
        (replaceDotP (fmt1 (listMaxQ
          ((p :: rest).map (fun pr => lastDistance (f pr).d)))) ++ "km") ++
        "_" ++ strftimeRun t ++ ".geojson") ∧
    (∃ l1 l2 : List Char, (strftimeRun t).data = l1 ++ '_' :: l2 ∧
      l1.length = 8 ∧ l2.length = 6 ∧
      (∀ c ∈ l1, c.isDigit = true) ∧ (∀ c ∈ l2, c.isDigit = true)) := by
  have hmax : maxDistKm f (p :: rest) =
      listMaxQ ((p :: rest).map (fun pr => lastDistance (f pr).d)) := by
    rw [maxDistKm_eq_foldl_map]
    refine foldl_max_zero_eq_listMaxQ _ ?_ (by simp)
    intro x hx
    rcases List.mem_map.1 hx with ⟨pr, hpr, hval⟩
    exact hval ▸ hnn pr hpr
  refine ⟨?_, ?_, ?_, ?_⟩
  · rw [pointsFileName, dTag, hmax]
  · rw [linesFileName, dTag, hmax]
  · rw [polygonFileName, dTag, hmax]
  · refine ⟨(pad4 t.year).data ++ (pad2 t.month).data ++ (pad2 t.day).data,
      (pad2 t.hour).data ++ (pad2 t.minute).data ++ (pad2 t.second).data,
      ?_, ?_, ?_, ?_, ?_⟩
    · simp [strftimeRun, String.data_append]
    · simp [pad4, pad2]
    · simp [pad2]
    · intro c hc
      rcases List.mem_append.1 hc with h | h
      · rcases List.mem_append.1 h with h2 | h2
        · exact mem_pad4_isDigit _ _ h2
        · exact mem_pad2_isDigit _ _ h2
      · exact mem_pad2_isDigit _ _ h
    · intro c hc
      rcases List.mem_append.1 hc with h | h
      · rcases List.mem_append.1 h with h2 | h2
        · exact mem_pad2_isDigit _ _ h2
        · exact mem_pad2_isDigit _ _ h2
      · exact mem_pad2_isDigit _ _ h

/-- C7 witness: the theorem applied to three profiles with final
distances 2, 5, 3 km at timestamp 2026-10-12 03:04:59, giving tag
`5p0km` and file name `points_5p0km_20261012_030459.geojson`. -/
theorem c7_witness :
    (∀ pr ∈ [ ({ f := 1, p := 50, d := [2], htg := 57, hrg := 10, pol := 1
               , txLat := 9, rxLat := 4, txLon := -13, rxLon := 3 } : LossParameterSet)
            , { f := 1, p := 50, d := [1, 5], htg := 57, hrg := 10, pol := 1
              , txLat := 9, rxLat := 4, txLon := -13, rxLon := 3 }
            , { f := 1, p := 50, d := [3], htg := 57, hrg := 10, pol := 1
              , txLat := 9, rxLat := 4, txLon := -13, rxLon := 3 } ],
       0 ≤ lastDistance ((fun ps : LossParameterSet => ps) pr).d) ∧
    pointsFileName (fun ps : LossParameterSet => ps)
      [ { f := 1, p := 50, d := [2], htg := 57, hrg := 10, pol := 1
        , txLat := 9, rxLat := 4, txLon := -13, rxLon := 3 }
      , { f := 1, p := 50, d := [1, 5], htg := 57, hrg := 10, pol := 1
        , txLat := 9, rxLat := 4, txLon := -13, rxLon := 3 }
      , { f := 1, p := 50, d := [3], htg := 57, hrg := 10, pol := 1
        , txLat := 9, rxLat := 4, txLon := -13, rxLon := 3 } ]
      ⟨2026, 10, 12, 3, 4, 59⟩ = "points_5p0km_20261012_030459.geojson" :=
  ⟨by decide,
   ((c7_output_file_names (fun ps : LossParameterSet => ps)
      ({ f := 1, p := 50, d := [2], htg := 57, hrg := 10, pol := 1
       , txLat := 9, rxLat := 4, txLon := -13, rxLon := 3 } : LossParameterSet)
      [ { f := 1, p := 50, d := [1, 5], htg := 57, hrg := 10, pol := 1
        , txLat := 9, rxLat := 4, txLon := -13, rxLon := 3 }
      , { f := 1, p := 50, d := [3], htg := 57, hrg := 10, pol := 1
        , txLat := 9, rxLat := 4, txLon := -13, rxLon := 3 } ]
      ⟨2026, 10, 12, 3, 4, 59⟩ (by decide)).1).trans (by decide)⟩

/-- C8: assuming the external `process_loss_parameters` is a pure
function of its profile (it is a Lean function `f` here), the maximum
path distance the orchestrator recomputes after the loop by re-deriving
each profile's parameters (`maxDistKm`) equals the maximum of the last
distance elements of the parameter sets `profiles.map f` already derived
once per profile inside the processing loop. -/
theorem c8_max_distance_recompute {α : Type} (f : α → LossParameterSet)
    (p : α) (rest : List α)
    (hnn : ∀ pr ∈ p :: rest, 0 ≤ lastDistance (f pr).d) :
    maxDistKm f (p :: rest) =
      listMaxQ (((p :: rest).map f).map (fun ps => lastDistance ps.d)) := by
  rw [List.map_map, maxDistKm_eq_foldl_map]
  refine foldl_max_zero_eq_listMaxQ _ ?_ (by simp)
  intro x hx
  rcases List.mem_map.1 hx with ⟨pr, hpr, hval⟩
  exact hval ▸ hnn pr hpr

/-- C8 witness: the theorem applied to the three-profile run with final
distances 2, 5, 3 km; both the recomputation and the cached parameter
sets give 5. -/
theorem c8_witness :
    (∀ pr ∈ [ ({ f := 1, p := 50, d := [2], htg := 57, hrg := 10, pol := 1
               , txLat := 9, rxLat := 4, txLon := -13, rxLon := 3 } : LossParameterSet)
            , { f := 1, p := 50, d := [1, 5], htg := 57, hrg := 10, pol := 1
              , txLat := 9, rxLat := 4, txLon := -13, rxLon := 3 }
            , { f := 1, p := 50, d := [3], htg := 57, hrg := 10, pol := 1
              , txLat := 9, rxLat := 4, txLon := -13, rxLon := 3 } ],
       0 ≤ lastDistance ((fun ps : LossParameterSet => ps) pr).d) ∧
    maxDistKm (fun ps : LossParameterSet => ps)
      [ { f := 1, p := 50, d := [2], htg := 57, hrg := 10, pol := 1
        , txLat := 9, rxLat := 4, txLon := -13, rxLon := 3 }
      , { f := 1, p := 50, d := [1, 5], htg := 57, hrg := 10, pol := 1
        , txLat := 9, rxLat := 4, txLon := -13, rxLon := 3 }
      , { f := 1, p := 50, d := [3], htg := 57, hrg := 10, pol := 1
        , txLat := 9, rxLat := 4, txLon := -13, rxLon := 3 } ] = 5 :=
  ⟨by decide,
   (c8_max_distance_recompute (fun ps : LossParameterSet => ps)
      ({ f := 1, p := 50, d := [2], htg := 57, hrg := 10, pol := 1
       , txLat := 9, rxLat := 4, txLon := -13, rxLon := 3 } : LossParameterSet)
      [ { f := 1, p := 50, d := [1, 5], htg := 57, hrg := 10, pol := 1
        , txLat := 9, rxLat := 4, txLon := -13, rxLon := 3 }
      , { f := 1, p := 50, d := [3], htg := 57, hrg := 10, pol := 1
        , txLat := 9, rxLat := 4, txLon := -13, rxLon := 3 } ]
      (by decide)).trans (by decide)⟩

/-- A message names a string when the string occurs in it verbatim. -/
def strMentions (msg x : String) : Prop :=
  ∃ pre post : String, msg = pre ++ (x ++ post)

/-- Every element of a rendered name list occurs verbatim in the
rendering. -/
theorem renderNames_mentions (l : List String) (x : String) (hx : x ∈ l) :
    ∃ p1 p2 : String, renderNames l = p1 ++ (x ++ p2) := by
  induction l with
  | nil => cases hx
  | cons hd tl ih =>
      rcases List.mem_cons.1 hx with rfl | hmem
      · cases tl with
        | nil =>
            exact ⟨"", "", by simp [renderNames, String.empty_append, String.append_empty]⟩
        | cons y rest =>
            exact ⟨"", ", " ++ renderNames (y :: rest),
              by simp [renderNames, String.empty_append, String.append_assoc]⟩
      · cases tl with
        | nil => cases hmem
        | cons y rest =>
            rcases ih hmem with ⟨p1, p2, hp⟩
            exact ⟨hd ++ ", " ++ p1, p2,
              by simp [renderNames, hp, String.append_assoc]⟩

/-- Wrapping a rendering that contains `x` between a prefix and a suffix
still mentions `x`. -/
theorem strMentions_wrap (pre post msg x : String)
    (h : ∃ p1 p2 : String, msg = p1 ++ (x ++ p2)) :
    strMentions (pre ++ msg ++ post) x := by
  rcases h with ⟨p1, p2, rfl⟩
  exact ⟨pre ++ p1, p2 ++ post, by simp [String.append_assoc]⟩

/-- The disjunction of conditions under which, per the claim,
`validate_config` must raise: a required section absent, a required
`TRANSMITTER` or `P1812` key absent, `frequency_ghz` outside
`[0.03, 6]`, `time_percentage` outside `[1, 50]`, or `polarization` not
`1` or `2`. -/
def configViolation (c : Config) : Prop :=
  (∃ s ∈ required_sections, assocFind c s = none) ∨
  (∃ tx, assocFind c "TRANSMITTER" = some tx ∧
    ∃ k ∈ required_tx_keys, assocFind tx (Key.s k) = none) ∨
  (∃ sec, assocFind c "P1812" = some sec ∧
    ∃ k ∈ required_p1812_keys, assocFind sec (Key.s k) = none) ∨
  (∃ sec q, assocFind c "P1812" = some sec ∧
    assocFind sec (Key.s "frequency_ghz") = some (Val.num q) ∧
    ¬ (mkRat 3 100 ≤ q ∧ q ≤ 6)) ∨
  (∃ sec q, assocFind c "P1812" = some sec ∧
    assocFind sec (Key.s "time_percentage") = some (Val.num q) ∧
    ¬ ((1 : ℚ) ≤ q ∧ q ≤ 50)) ∨
  (∃ sec v, assocFind c "P1812" = some sec ∧
    assocFind sec (Key.s "polarization") = some v ∧
    v ∉ [Val.num 1, Val.num 2])

/-- The raised message names its culprit: a missing section or key by
name, an out-of-range or invalid value by its rendering. -/
def errorNamesCulprit (c : Config) (msg : String) : Prop :=
  (∃ s ∈ required_sections, assocFind c s = none ∧ strMentions msg s) ∨
  (∃ tx k, assocFind c "TRANSMITTER" = some tx ∧ k ∈ required_tx_keys ∧
    assocFind tx (Key.s k) = none ∧ strMentions msg k) ∨
  (∃ sec k, assocFind c "P1812" = some sec ∧ k ∈ required_p1812_keys ∧
    assocFind sec (Key.s k) = none ∧ strMentions msg k) ∨
  (∃ sec q, assocFind c "P1812" = some sec ∧
    assocFind sec (Key.s "frequency_ghz") = some (Val.num q) ∧
    ¬ (mkRat 3 100 ≤ q ∧ q ≤ 6) ∧ strMentions msg (numStr q)) ∨
  (∃ sec q, assocFind c "P1812" = some sec ∧
    assocFind sec (Key.s "time_percentage") = some (Val.num q) ∧
    ¬ ((1 : ℚ) ≤ q ∧ q ≤ 50) ∧ strMentions msg (numStr q)) ∨
  (∃ sec v, assocFind c "P1812" = some sec ∧
    assocFind sec (Key.s "polarization") = some v ∧
    v ∉ [Val.num 1, Val.num 2] ∧ strMentions msg (valStr v))

/-- The configurations on which the Python comparisons are defined: the
`frequency_ghz` and `time_percentage` entries of `P1812`, when present,
are numbers (a string there would make Python raise `TypeError` at the
chained comparison rather than a configuration error). -/
def p1812Comparable (c : Config) : Bool :=
  match assocFind c "P1812" with
  | none => true
  | some sec =>
      (match assocFind sec (Key.s "frequency_ghz") with
       | some (Val.str _) => false
       | _ => true) &&
      (match assocFind sec (Key.s "time_percentage") with
       | some (Val.str _) => false
       | _ => true)

/-- Under `p1812Comparable`, a present `frequency_ghz` entry is numeric. -/
theorem comparable_freq (c : Config) (sec : Sect)
    (hp : assocFind c "P1812" = some sec) (hnum : p1812Comparable c = true) :
    ∀ v, assocFind sec (Key.s "frequency_ghz") = some v → ∃ q, v = Val.num q := by
  intro v hv
  unfold p1812Comparable at hnum
  rw [hp] at hnum
  rw [Bool.and_eq_true] at hnum
  rcases hnum with ⟨hf, _⟩
  cases v with
  | num q => exact ⟨q, rfl⟩
  | str s => rw [hv] at hf; simp at hf

/-- Under `p1812Comparable`, a present `time_percentage` entry is
numeric. -/
theorem comparable_time (c : Config) (sec : Sect)
    (hp : assocFind c "P1812" = some sec) (hnum : p1812Comparable c = true) :
    ∀ v, assocFind sec (Key.s "time_percentage") = some v → ∃ q, v = Val.num q := by
  intro v hv
  unfold p1812Comparable at hnum
  rw [hp] at hnum
  rw [Bool.and_eq_true] at hnum
  rcases hnum with ⟨_, ht⟩
  cases v with
  | num q => exact ⟨q, rfl⟩
  | str s => rw [hv] at ht; simp at ht

/-- A section known not to be filtered out as missing is present. -/
theorem find_some_of_filter_nil {β : Type} (l : List String)
    (g : String → Option β)
    (h : l.filter (fun s => (g s).isNone) = []) (s : String) (hs : s ∈ l) :
    ∃ v, g s = some v := by
  have hns := List.filter_eq_nil_iff.1 h s hs
  cases hfind : g s with
  | none => exact absurd (by simp [hfind]) hns
  | some v => exact ⟨v, rfl⟩

/-- C2: on every configuration on which Python's comparisons are defined
(`p1812Comparable`), `validate_config` succeeds iff none of the claim's
conditions holds — a required section absent, a required `TRANSMITTER`
or `P1812` key absent, `frequency_ghz` outside `[0.03, 6]`,
`time_percentage` outside `[1, 50]`, or `polarization` not 1 or 2; every
raised error is a configuration (validation) error whose message names
the missing section/key or the offending value; and the built-in
`DEFAULT_CONFIG` passes validation. -/
theorem c2_validate_config (c : Config) (hnum : p1812Comparable c = true) :
    validate_config DEFAULT_CONFIG = Except.ok () ∧
    (validate_config c = Except.ok () ↔ ¬ configViolation c) ∧
    (∀ msg, validate_config c = Except.error (VErr.validation msg) →
      errorNamesCulprit c msg) ∧
    (∀ e, validate_config c = Except.error e → ∃ msg, e = VErr.validation msg) := by
  refine ⟨by decide, ?_⟩
  by_cases h1 : required_sections.filter (fun sec => (assocFind c sec).isNone) = []
  case neg =>
    have hval : validate_config c = Except.error (VErr.validation
        ("Missing CONFIG sections: [" ++
          renderNames (required_sections.filter
            (fun sec => (assocFind c sec).isNone)) ++ "]")) := by
      simp only [validate_config]
      rw [if_pos h1]
    obtain ⟨s0, hs0⟩ := List.exists_mem_of_ne_nil _ h1
    have hs0' := List.mem_filter.1 hs0
    have hsnone : assocFind c s0 = none := Option.isNone_iff_eq_none.1 hs0'.2
    refine ⟨iff_of_false (by simp [hval]) (not_not_intro (Or.inl ⟨s0, hs0'.1, hsnone⟩)),
      ?_, ?_⟩
    · intro msg hmsg
      rw [hval] at hmsg
      injection hmsg with h'
      injection h' with h''
      subst h''
      exact Or.inl ⟨s0, hs0'.1, hsnone,
        strMentions_wrap _ _ _ _ (renderNames_mentions _ _ hs0)⟩
    · intro e he
      rw [hval] at he
      exact ⟨_, (Except.error.inj he).symm⟩
  case pos =>
    obtain ⟨tx, htx⟩ := find_some_of_filter_nil required_sections
      (fun s => assocFind c s) h1 "TRANSMITTER" (by decide)
    by_cases h2 : required_tx_keys.filter (fun k => (assocFind tx (Key.s k)).isNone) = []
    case neg =>
      have hval : validate_config c = Except.error (VErr.validation
          ("Missing TRANSMITTER keys: [" ++
            renderNames (required_tx_keys.filter
              (fun k => (assocFind tx (Key.s k)).isNone)) ++ "]")) := by
        simp only [validate_config]
        rw [if_neg (not_not_intro h1)]
        simp only [htx, Option.getD_some]
        rw [if_pos h2]
      obtain ⟨k0, hk0⟩ := List.exists_mem_of_ne_nil _ h2
      have hk0' := List.mem_filter.1 hk0
      have hknone : assocFind tx (Key.s k0) = none := Option.isNone_iff_eq_none.1 hk0'.2
      refine ⟨iff_of_false (by simp [hval])
        (not_not_intro (Or.inr (Or.inl ⟨tx, htx, k0, hk0'.1, hknone⟩))), ?_, ?_⟩
      · intro msg hmsg
        rw [hval] at hmsg
        injection hmsg with h'
        injection h' with h''
        subst h''
        exact Or.inr (Or.inl ⟨tx, k0, htx, hk0'.1, hknone,
          strMentions_wrap _ _ _ _ (renderNames_mentions _ _ hk0)⟩)
      · intro e he
        rw [hval] at he
        exact ⟨_, (Except.error.inj he).symm⟩
    case pos =>
      obtain ⟨ps, hps⟩ := find_some_of_filter_nil required_sections
        (fun s => assocFind c s) h1 "P1812" (by decide)
      by_cases h3 : required_p1812_keys.filter
          (fun k => (assocFind ps (Key.s k)).isNone) = []
      case neg =>
        have hval : validate_config c = Except.error (VErr.validation
            ("Missing P1812 keys: [" ++
              renderNames (required_p1812_keys.filter
                (fun k => (assocFind ps (Key.s k)).isNone)) ++ "]")) := by
          simp only [validate_config]
          rw [if_neg (not_not_intro h1)]
          simp only [htx, Option.getD_some]
          rw [if_neg (not_not_intro h2)]
          simp only [hps, Option.getD_some]
          rw [if_pos h3]
        obtain ⟨k0, hk0⟩ := List.exists_mem_of_ne_nil _ h3
        have hk0' := List.mem_filter.1 hk0
        have hknone : assocFind ps (Key.s k0) = none := Option.isNone_iff_eq_none.1 hk0'.2
        refine ⟨iff_of_false (by simp [hval])
          (not_not_intro (Or.inr (Or.inr (Or.inl ⟨ps, hps, k0, hk0'.1, hknone⟩)))),
          ?_, ?_⟩
        · intro msg hmsg
          rw [hval] at hmsg
          injection hmsg with h'
          injection h' with h''
          subst h''
          exact Or.inr (Or.inr (Or.inl ⟨ps, k0, hps, hk0'.1, hknone,
            strMentions_wrap _ _ _ _ (renderNames_mentions _ _ hk0)⟩))
        · intro e he
          rw [hval] at he
          exact ⟨_, (Except.error.inj he).symm⟩
      case pos =>
        obtain ⟨vf, hvf⟩ := find_some_of_filter_nil required_p1812_keys
          (fun k => assocFind ps (Key.s k)) h3 "frequency_ghz" (by decide)
        obtain ⟨qf, rfl⟩ := comparable_freq c ps hps hnum vf hvf
        obtain ⟨vt, hvt⟩ := find_some_of_filter_nil required_p1812_keys
          (fun k => assocFind ps (Key.s k)) h3 "time_percentage" (by decide)
        obtain ⟨qt, rfl⟩ := comparable_time c ps hps hnum vt hvt
        obtain ⟨vp, hvp⟩ := find_some_of_filter_nil required_p1812_keys
          (fun k => assocFind ps (Key.s k)) h3 "polarization" (by decide)
        by_cases h4 : mkRat 3 100 ≤ qf ∧ qf ≤ 6
        case neg =>
          have hval : validate_config c = Except.error (VErr.validation
              ("Frequency " ++ numStr qf ++ " outside valid range [0.03, 6]")) := by
            simp only [validate_config]
            rw [if_neg (not_not_intro h1)]
            simp only [htx, Option.getD_some]
            rw [if_neg (not_not_intro h2)]
            simp only [hps, Option.getD_some]
            rw [if_neg (not_not_intro h3)]
            simp only [getNumEntry, hvf]
            rw [if_pos h4]
          refine ⟨iff_of_false (by simp [hval])
            (not_not_intro (Or.inr (Or.inr (Or.inr (Or.inl ⟨ps, qf, hps, hvf, h4⟩))))),
            ?_, ?_⟩
          · intro msg hmsg
            rw [hval] at hmsg
            injection hmsg with h'
            injection h' with h''
            subst h''
            exact Or.inr (Or.inr (Or.inr (Or.inl ⟨ps, qf, hps, hvf, h4,
              ⟨"Frequency ", " outside valid range [0.03, 6]", rfl⟩⟩)))
          · intro e he
            rw [hval] at he
            exact ⟨_, (Except.error.inj he).symm⟩
        case pos =>
          by_cases h5 : (1 : ℚ) ≤ qt ∧ qt ≤ 50
          case neg =>
            have hval : validate_config c = Except.error (VErr.validation
                ("Time percentage " ++ numStr qt ++
                  " outside valid range [1, 50]")) := by
              simp only [validate_config]
              rw [if_neg (not_not_intro h1)]
              simp only [htx, Option.getD_some]
              rw [if_neg (not_not_intro h2)]
              simp only [hps, Option.getD_some]
              rw [if_neg (not_not_intro h3)]
              simp only [getNumEntry, hvf]
              rw [if_neg (not_not_intro h4)]
              simp only [hvt]
              rw [if_pos h5]
            refine ⟨iff_of_false (by simp [hval])
              (not_not_intro (Or.inr (Or.inr (Or.inr (Or.inr (Or.inl
                ⟨ps, qt, hps, hvt, h5⟩)))))), ?_, ?_⟩
            · intro msg hmsg
              rw [hval] at hmsg
              injection hmsg with h'
              injection h' with h''
              subst h''
              exact Or.inr (Or.inr (Or.inr (Or.inr (Or.inl ⟨ps, qt, hps, hvt, h5,
                ⟨"Time percentage ", " outside valid range [1, 50]", rfl⟩⟩))))
            · intro e he
              rw [hval] at he
              exact ⟨_, (Except.error.inj he).symm⟩
          case pos =>
            by_cases h6 : vp ∈ [Val.num 1, Val.num 2]
            case neg =>
              have hval : validate_config c = Except.error (VErr.validation
                  ("Polarization " ++ valStr vp ++ " must be 1 (H) or 2 (V)")) := by
                simp only [validate_config]
                rw [if_neg (not_not_intro h1)]
                simp only [htx, Option.getD_some]
                rw [if_neg (not_not_intro h2)]
                simp only [hps, Option.getD_some]
                rw [if_neg (not_not_intro h3)]
                simp only [getNumEntry, hvf]
                rw [if_neg (not_not_intro h4)]
                simp only [hvt]
                rw [if_neg (not_not_intro h5)]
                simp only [hvp]
                rw [if_pos h6]
              refine ⟨iff_of_false (by simp [hval])
                (not_not_intro (Or.inr (Or.inr (Or.inr (Or.inr (Or.inr
                  ⟨ps, vp, hps, hvp, h6⟩)))))), ?_, ?_⟩
              · intro msg hmsg
                rw [hval] at hmsg
                injection hmsg with h'
                injection h' with h''
                subst h''
                exact Or.inr (Or.inr (Or.inr (Or.inr (Or.inr ⟨ps, vp, hps, hvp, h6,
                  ⟨"Polarization ", " must be 1 (H) or 2 (V)", rfl⟩⟩))))
              · intro e he
                rw [hval] at he
                exact ⟨_, (Except.error.inj he).symm⟩
            case pos =>
              have hval : validate_config c = Except.ok () := by
                simp only [validate_config]
                rw [if_neg (not_not_intro h1)]
                simp only [htx, Option.getD_some]
                rw [if_neg (not_not_intro h2)]
                simp only [hps, Option.getD_some]
                rw [if_neg (not_not_intro h3)]
                simp only [getNumEntry, hvf]
                rw [if_neg (not_not_intro h4)]
                simp only [hvt]
                rw [if_neg (not_not_intro h5)]
                simp only [hvp]
                rw [if_neg (not_not_intro h6)]
              have hnot : ¬ configViolation c := by
                intro hv
                rcases hv with ⟨s, hsm, hsn⟩ | ⟨tx', htx', k, hkm, hkn⟩ |
                  ⟨p', hp', k, hkm, hkn⟩ | ⟨p', q, hp', hq, hout⟩ |
                  ⟨p', q, hp', hq, hout⟩ | ⟨p', v, hp', hv', hnm⟩
                · exact (List.filter_eq_nil_iff.1 h1 s hsm) (by simp [hsn])
                · obtain rfl : tx = tx' := Option.some.inj (htx.symm.trans htx')
                  exact (List.filter_eq_nil_iff.1 h2 k hkm) (by simp [hkn])
                · obtain rfl : ps = p' := Option.some.inj (hps.symm.trans hp')
                  exact (List.filter_eq_nil_iff.1 h3 k hkm) (by simp [hkn])
                · obtain rfl : ps = p' := Option.some.inj (hps.symm.trans hp')
                  have : Val.num qf = Val.num q := Option.some.inj (hvf.symm.trans hq)
                  cases this
                  exact hout h4
                · obtain rfl : ps = p' := Option.some.inj (hps.symm.trans hp')
                  have : Val.num qt = Val.num q := Option.some.inj (hvt.symm.trans hq)
                  cases this
                  exact hout h5
                · obtain rfl : ps = p' := Option.some.inj (hps.symm.trans hp')
                  obtain rfl : vp = v := Option.some.inj (hvp.symm.trans hv')
                  exact hnm h6
              refine ⟨iff_of_true hval hnot, ?_, ?_⟩
              · intro msg hmsg
                rw [hval] at hmsg
                cases hmsg
              · intro e he
                rw [hval] at he
                cases he

/-- C2 witness: the theorem applied at the spec's own test config — the
defaults with the `P1812` section removed — which is comparable, fails
validation, and produces the message naming `P1812`; the first conjunct
of the theorem gives that the defaults pass. -/
theorem c2_witness :
    p1812Comparable
      [ ("TRANSMITTER", DEFAULT_TRANSMITTER)
      , ("RECEIVER_GENERATION", DEFAULT_RECEIVER_GENERATION)
      , ("LCM10_TO_CT", DEFAULT_LCM10_TO_CT)
      , ("CT_TO_R", DEFAULT_CT_TO_R) ] = true ∧
    validate_config DEFAULT_CONFIG = Except.ok () ∧
    validate_config
      [ ("TRANSMITTER", DEFAULT_TRANSMITTER)
      , ("RECEIVER_GENERATION", DEFAULT_RECEIVER_GENERATION)
      , ("LCM10_TO_CT", DEFAULT_LCM10_TO_CT)
      , ("CT_TO_R", DEFAULT_CT_TO_R) ] =
      Except.error (VErr.validation "Missing CONFIG sections: [P1812]") :=
  ⟨by decide,
   (c2_validate_config
      [ ("TRANSMITTER", DEFAULT_TRANSMITTER)
      , ("RECEIVER_GENERATION", DEFAULT_RECEIVER_GENERATION)
      , ("LCM10_TO_CT", DEFAULT_LCM10_TO_CT)
      , ("CT_TO_R", DEFAULT_CT_TO_R) ] (by decide)).1,
   by decide⟩

end MstGis
